import Mathlib

/-!
Verification of the PairSpot dual-party onboarding workflow, shallowly
embedded from the web client source (`src/web/src/lib/api.ts`,
`src/web/src/lib/types.ts`, the register/initiate page, the register/verify
page and the register/complete page).

Browser `localStorage` is modelled as a partial map from keys to strings;
`URLSearchParams.get` as a partial map from parameter names to strings
(`none` = parameter absent, `some ""` = parameter present with empty value,
matching the DOM API).  JavaScript string truthiness (`""` is falsy, every
other string truthy) is rendered with `String.isEmpty`.
-/

/-- Browser `localStorage`: a partial map from keys to stored strings. -/
def LocalStore : Type := String → Option String

/-- `localStorage.getItem(k)` — `none` models JavaScript `null`. -/
def getItem (store : LocalStore) (k : String) : Option String := store k

/-- `localStorage.setItem(k, v)`. -/
def setItem (k v : String) (store : LocalStore) : LocalStore :=
  fun k' => if k' = k then some v else store k'

/-- `localStorage.removeItem(k)`. -/
def removeItem (k : String) (store : LocalStore) : LocalStore :=
  fun k' => if k' = k then none else store k'

/-- A store holding nothing, e.g. a fresh browser profile on a device that
never initiated a registration. -/
def emptyStore : LocalStore := fun _ => none

/-- `useSearchParams()` as seen through `.get`: `none` when the parameter is
absent from the URL, `some ""` when present with an empty value. -/
def SearchParams : Type := String → Option String

/-- The `localStorage` key for the registration (couple) id, from the source. -/
def keyCoupleId : String := "pairspot_couple_id"

/-- The `localStorage` key for Partner A's contact address, from the source. -/
def keyEmailA : String := "pairspot_email_a"

/-- The `localStorage` key for Partner B's contact address, from the source. -/
def keyEmailB : String := "pairspot_email_b"

/-- The URL query parameter carrying an explicit registration id. -/
def paramCoupleId : String := "couple_id"

/-! ### The completion page (`CompleteContent`) -/

/-- Component state of `CompleteContent` that the claims mention. -/
structure CompleteState where
  coupleId : String
  emailA : String
  emailB : String
  loading : Bool
  errorMsg : String
  success : Bool
deriving DecidableEq

/-- The initial `useState` values of `CompleteContent`. -/
def initCompleteState : CompleteState :=
  { coupleId := "", emailA := "", emailB := "", loading := false,
    errorMsg := "", success := false }

/-- The `useEffect` of `CompleteContent`: resolves the registration id as
`searchParams.get("couple_id") ?? (localStorage.getItem("pairspot_couple_id") ?? "")`
and loads both stored contact addresses. -/
def CompleteContent.onMount (params : SearchParams) (store : LocalStore)
    (s : CompleteState) : CompleteState :=
  let storedId := (getItem store keyCoupleId).getD ""
  { s with
    coupleId := (params paramCoupleId).getD storedId,
    emailA := (getItem store keyEmailA).getD "",
    emailB := (getItem store keyEmailB).getD "" }

/-- The submit button's `disabled={loading || !coupleId}`: a JavaScript
string is falsy exactly when it is empty. -/
def submitDisabled (loading : Bool) (coupleId : String) : Bool :=
  loading || coupleId.isEmpty

/-- The credential form fields of the completion page. -/
structure CompleteForm where
  display_name_a : String
  display_name_b : String
  password_a : String
  password_b : String
deriving DecidableEq

/-- Request body of `POST /api/v1/auth/register/complete`
(`RegisterCompleteRequest` in `types.ts`). -/
structure RegisterCompleteRequest where
  couple_id : String
  password_a : String
  password_b : String
  display_name_a : String
  display_name_b : String
deriving DecidableEq

/-- Response body of the completion endpoint (`RegisterCompleteResponse`). -/
structure RegisterCompleteResponse where
  couple_id : String
  message : String
deriving DecidableEq

/-- The request object `handleSubmit` passes to `registerComplete`. -/
def CompleteContent.buildRequest (s : CompleteState) (form : CompleteForm) :
    RegisterCompleteRequest :=
  { couple_id := s.coupleId,
    display_name_a := form.display_name_a,
    display_name_b := form.display_name_b,
    password_a := form.password_a,
    password_b := form.password_b }

/-- `handleSubmit` of the completion page.  The network call is abstracted as
`api : RegisterCompleteRequest → Except String RegisterCompleteResponse`
(an `Error` thrown by `registerComplete` is the `.error` case).  On success
the three correlation keys are removed from `localStorage` and `success`
is set; on failure the error message is shown and the store is untouched. -/
def CompleteContent.handleSubmit (s : CompleteState) (form : CompleteForm)
    (store : LocalStore)
    (api : RegisterCompleteRequest → Except String RegisterCompleteResponse) :
    CompleteState × LocalStore :=
  match api (CompleteContent.buildRequest s form) with
  | .ok _ =>
      ({ s with errorMsg := "", success := true, loading := false },
       removeItem keyEmailB (removeItem keyEmailA (removeItem keyCoupleId store)))
  | .error msg =>
      ({ s with errorMsg := msg, loading := false }, store)

/-! ### The initiation page (`RegisterPage`) -/

/-- The form fields of the initiation page (all `useState`-backed strings;
an untouched optional date input is the empty string). -/
structure InitiateForm where
  email_a : String
  email_b : String
  couple_name : String
  anniversary_date : String
deriving DecidableEq

/-- Request body of `POST /api/v1/auth/register/initiate`
(`RegisterInitiateRequest` in `types.ts`; the optional field is an
`Option`, `none` meaning the key is absent from the JSON object). -/
structure RegisterInitiateRequest where
  email_a : String
  email_b : String
  couple_name : String
  anniversary_date : Option String
deriving DecidableEq

/-- Response body of the initiation endpoint (`RegisterInitiateResponse`). -/
structure RegisterInitiateResponse where
  couple_id : String
  message : String
deriving DecidableEq

/-- The payload built by the initiation page's `handleSubmit`: the spread
`...(form.anniversary_date ? { anniversary_date: ... } : {})` includes the
field exactly when the string is truthy, i.e. non-empty. -/
def RegisterPage.buildPayload (form : InitiateForm) : RegisterInitiateRequest :=
  { email_a := form.email_a,
    email_b := form.email_b,
    couple_name := form.couple_name,
    anniversary_date :=
      if form.anniversary_date.isEmpty then none else some form.anniversary_date }

/-- UI state of the initiation page that the claims mention. -/
structure InitiateState where
  loading : Bool
  errorMsg : String
  successMsg : String
deriving DecidableEq

/-- `handleSubmit` of the initiation page.  On success the returned
registration id and both submitted contact addresses are written to
`localStorage` under the three correlation keys; on failure the store is
untouched. -/
def RegisterPage.handleSubmit (form : InitiateForm) (s : InitiateState)
    (store : LocalStore)
    (api : RegisterInitiateRequest → Except String RegisterInitiateResponse) :
    InitiateState × LocalStore :=
  match api (RegisterPage.buildPayload form) with
  | .ok res =>
      ({ s with
          errorMsg := "",
          loading := false,
          successMsg := "成功！couple_id: " ++ res.couple_id },
       setItem keyEmailB form.email_b
         (setItem keyEmailA form.email_a
           (setItem keyCoupleId res.couple_id store)))
  | .error msg =>
      ({ s with errorMsg := msg, successMsg := "", loading := false }, store)

/-! ### The verification page (`VerifyContent`) -/

/-- The tri-state (plus loading) `Status` of the verify page. -/
inductive VerifyStatus where
  | loading
  | successOne
  | successBoth
  | failed
deriving DecidableEq

/-- Response body of `POST /api/v1/auth/register/verify`
(`RegisterVerifyResponse` in `types.ts`): note it carries no registration
id, only the verified contact address and the aggregate flag. -/
structure RegisterVerifyResponse where
  email : String
  verified : Bool
  both_verified : Bool
deriving DecidableEq

/-- UI state of the verify page. -/
structure VerifyState where
  status : VerifyStatus
  email : String
  errorMsg : String
deriving DecidableEq

/-- The initial `useState` values of `VerifyContent`. -/
def initVerifyState : VerifyState :=
  { status := .loading, email := "", errorMsg := "" }

/-- The continuation of `registerVerify(token).then(...).catch(...)`: on
success the response's contact address is shown and the status becomes
`success-both` or `success-one` according to `both_verified`; on failure
the error message is shown. -/
def VerifyContent.onVerifyResult (s : VerifyState)
    (r : Except String RegisterVerifyResponse) : VerifyState :=
  match r with
  | .ok res =>
      { s with
        email := res.email,
        status := if res.both_verified then .successBoth else .successOne }
  | .error msg =>
      { s with errorMsg := msg, status := .failed }

/-- `goToComplete` of the verify page: the navigation target, as the
`couple_id` search parameter the completion page will observe.  The path is
built from this device's stored id only — `some id` when a non-empty id is
stored (path `/register/complete?couple_id=...`), `none` otherwise (bare
path `/register/complete`). -/
def VerifyContent.goToCompleteParam (store : LocalStore) : Option String :=
  let coupleId := (getItem store keyCoupleId).getD ""
  if coupleId.isEmpty then none else some coupleId

/-- The search parameters of the page `goToComplete` navigates to. -/
def VerifyContent.goToCompleteParams (store : LocalStore) : SearchParams :=
  fun k => if k = paramCoupleId then VerifyContent.goToCompleteParam store else none

/-! ### The REST client error handling (`api.ts`) -/

/-- The parsed JSON `detail` field of a FastAPI error body
(`FastAPIError = \x7b detail: string | Array<\x7b msg: string \x7d> \x7d`):
a plain string, an array of objects carrying `msg`, or any other JSON
shape. -/
inductive JsonDetail where
  | str (s : String)
  | arr (msgs : List String)
  | other
deriving DecidableEq

/-- An HTTP response as `parseError`/`post` observe it: the `ok` flag, the
numeric status, and the body's `detail` field — `none` when the body is not
JSON at all (the `catch` branch). -/
structure HttpResponse where
  ok : Bool
  status : Nat
  detail : Option JsonDetail
deriving DecidableEq

/-- `parseError` from `api.ts`: a string `detail` is returned verbatim, an
array `detail` is mapped to its `msg`s joined with `"; "`, anything else
falls back to `"HTTP <status>"`. -/
def parseError (res : HttpResponse) : String :=
  match res.detail with
  | some (.str s) => s
  | some (.arr msgs) => String.intercalate ("; ") msgs
  | some .other => "HTTP " ++ toString res.status
  | none => "HTTP " ++ toString res.status

/-- The `post` helper's outcome: a non-ok response throws
`new Error(await parseError(res))`; an ok response yields the parsed body,
abstracted here as `Unit`. -/
def post (res : HttpResponse) : Except String Unit :=
  if res.ok then .ok () else .error (parseError res)

/-! ### The server-side Verification Coordinator

The backend implementation is not part of the observed source (only its
request/response schemas, README and architecture document are), so the
coordinator is modelled from the specification text of the data model and
of §4.2. -/

/-- Modelled from the spec: the two fixed party slot labels A and B of a
registration (the backend source holding this type is absent). -/
inductive Slot where
  | A
  | B
deriving DecidableEq

/-- Modelled from the spec: one of the two party slots of a registration —
its immutable contact address and its monotonic `verified` flag (the
credential fields are set only by the Completion Gate, outside this
model's claims). -/
structure PartySlot where
  contact_address : String
  verified : Bool
deriving DecidableEq

/-- Modelled from the spec: a pending joint registration with exactly two
labeled party slots. -/
structure Registration where
  slotA : PartySlot
  slotB : PartySlot
deriving DecidableEq

/-- Modelled from the spec: a single-use, expiring verification token bound
to one party slot of one registration. -/
structure VerificationToken where
  value : String
  slot : Slot
  expires_at : Nat
  consumed : Bool
deriving DecidableEq

/-- Modelled from the spec: the persisted tokens of one registration, keyed
by their unique `value`. -/
def TokenStore : Type := String → Option VerificationToken

/-- Modelled from the spec: the shared mutable state one registration's
verification sub-flows operate on — the registration record plus its
issued tokens. -/
structure RegState where
  reg : Registration
  tokens : TokenStore

/-- Modelled from the spec: the distinct failures of `redeem` (§4.2 steps
1–3). -/
inductive RedeemError where
  | tokenNotFound
  | tokenExpired
  | tokenAlreadyConsumed
deriving DecidableEq

/-- Modelled from the spec: the `VerificationResult` returned by `redeem` —
the redeemed slot's contact address and the aggregate readiness flag. -/
structure VerificationResult where
  contact_address : String
  both_verified : Bool
deriving DecidableEq

/-- Reads the labeled slot of a registration. -/
def Registration.slotOf (r : Registration) : Slot → PartySlot
  | .A => r.slotA
  | .B => r.slotB

/-- Sets the labeled slot's `verified` flag (idempotent when already true). -/
def Registration.setVerified (r : Registration) : Slot → Registration
  | .A => { r with slotA := { r.slotA with verified := true } }
  | .B => { r with slotB := { r.slotB with verified := true } }

/-- Modelled from the spec: `redeem(token_value)` of §4.2.  Looks the token
up by value (`TokenNotFound` when absent), rejects it when the current time
is past `expires_at` (`TokenExpired`) or when already consumed
(`TokenAlreadyConsumed`); otherwise marks the token consumed, sets the
bound slot's `verified` flag, recomputes `both_verified` as the conjunction
of the two flags, and returns the redeemed slot's contact address with the
aggregate flag. -/
def redeem (now : Nat) (tokenValue : String) (st : RegState) :
    Except RedeemError (RegState × VerificationResult) :=
  match st.tokens tokenValue with
  | none => .error .tokenNotFound
  | some tok =>
      if tok.expires_at < now then .error .tokenExpired
      else if tok.consumed then .error .tokenAlreadyConsumed
      else
        let tokens' : TokenStore := fun v =>
          if v = tokenValue then some { tok with consumed := true }
          else st.tokens v
        let reg' := st.reg.setVerified tok.slot
        .ok ({ reg := reg', tokens := tokens' },
             { contact_address := (reg'.slotOf tok.slot).contact_address,
               both_verified := reg'.slotA.verified && reg'.slotB.verified })

/-- Two consecutive redemptions; the returned result is the second one's. -/
def redeem2 (now : Nat) (v1 v2 : String) (st : RegState) :
    Except RedeemError (RegState × VerificationResult) :=
  match redeem now v1 st with
  | .error e => .error e
  | .ok (st1, _) => redeem now v2 st1

/-! ### Concrete instances used by the claim witnesses -/


/-- Search parameters carrying only the `couple_id` parameter. -/
def paramsWith (v : Option String) : SearchParams :=
  fun k => if k = paramCoupleId then v else none

/-- A store as left by a successful initiation that returned `stored-id`
(only the id key matters to the id-resolution claims). -/
def storeInitiated : LocalStore :=
  setItem keyCoupleId ("stored-id") emptyStore

/-- A completion-page state whose id resolved to a non-empty value. -/
def readyState : CompleteState :=
  { initCompleteState with coupleId := "cid-7" }

/-- A concrete credential form. -/
def anyForm : CompleteForm :=
  { display_name_a := "Dylan", display_name_b := "Alex",
    password_a := "password1", password_b := "password2" }

/-- A filled initiation form with a date. -/
def formWithDate : InitiateForm :=
  { email_a := "a@x.com", email_b := "b@x.com",
    couple_name := "Dylan & Alex", anniversary_date := "2024-02-14" }

/-- The same form with the optional date left empty. -/
def formNoDate : InitiateForm :=
  { formWithDate with anniversary_date := "" }

/-- A quiescent initiation-page state. -/
def initState0 : InitiateState :=
  { loading := false, errorMsg := "", successMsg := "" }

/-- An initiation endpoint that succeeds with registration id `cid-42`. -/
def initApiOk : RegisterInitiateRequest → Except String RegisterInitiateResponse :=
  fun _ => .ok { couple_id := "cid-42", message := "verification emails sent" }

/-- A store holding the full correlation record of an initiated flow. -/
def storeFull : LocalStore :=
  setItem keyEmailB ("b@x.com") (setItem keyEmailA ("a@x.com") storeInitiated)

/-- A completion endpoint that succeeds. -/
def completeApiOk : RegisterCompleteRequest → Except String RegisterCompleteResponse :=
  fun req => .ok { couple_id := req.couple_id, message := "account activated" }

/-- A completion endpoint that fails. -/
def completeApiErr : RegisterCompleteRequest → Except String RegisterCompleteResponse :=
  fun _ => .error ("Registration not found")

/-- A failed response with a string `detail`. -/
def resStr : HttpResponse :=
  { ok := false, status := 400, detail := some (.str ("Registration not found")) }

/-- A failed response with an array `detail` of two messages. -/
def resArr : HttpResponse :=
  { ok := false, status := 422,
    detail := some (.arr [("field required"), ("value too short")]) }

/-- A failed response whose body is not JSON. -/
def resRaw : HttpResponse :=
  { ok := false, status := 500, detail := none }

/-- A successful verify response as seen on the second party's device. -/
def verifyResB : RegisterVerifyResponse :=
  { email := "b@x.com", verified := true, both_verified := true }

/-- A concrete registration awaiting both verifications. -/
def regEx : Registration :=
  { slotA := { contact_address := "a@x.com", verified := false },
    slotB := { contact_address := "b@x.com", verified := false } }

/-- Party A's live token. -/
def tokA : VerificationToken :=
  { value := "tok-a", slot := .A, expires_at := 100, consumed := false }

/-- Party B's live token. -/
def tokB : VerificationToken :=
  { value := "tok-b", slot := .B, expires_at := 100, consumed := false }

/-- The registration state right after initiation issued both tokens. -/
def stEx : RegState :=
  { reg := regEx,
    tokens := fun v =>
      if v = tokA.value then some tokA
      else if v = tokB.value then some tokB else none }

/-! ## Claim theorems -/

/-- C1: a completion-step visit resolves the registration id with priority:
a `couple_id` URL parameter, when present, overrides any locally stored
value; when absent, the locally stored id is used, and the empty string
when nothing is stored either. -/
theorem completionId_priority (params : SearchParams) (store : LocalStore)
    (s : CompleteState) :
    (∀ pid, params paramCoupleId = some pid →
      (CompleteContent.onMount params store s).coupleId = pid) ∧
    (params paramCoupleId = none →
      (CompleteContent.onMount params store s).coupleId =
        (getItem store keyCoupleId).getD "") ∧
    (params paramCoupleId = none → getItem store keyCoupleId = none →
      (CompleteContent.onMount params store s).coupleId = "") := by
  refine ⟨fun pid h => ?_, fun h => ?_, fun h h2 => ?_⟩
  · simp [CompleteContent.onMount, h]
  · simp [CompleteContent.onMount, h]
  · simp [CompleteContent.onMount, h, h2]

/-- Witness for C1 at concrete inputs: a link-carried id beats the stored
one, the stored one is used when no parameter is present, and a fresh
store yields the empty id. -/
theorem completionId_priority_witness :
    (CompleteContent.onMount (paramsWith (some ("link-id"))) storeInitiated
      initCompleteState).coupleId = "link-id" ∧
    (CompleteContent.onMount (paramsWith none) storeInitiated
      initCompleteState).coupleId = "stored-id" ∧
    (CompleteContent.onMount (paramsWith none) emptyStore
      initCompleteState).coupleId = "" := by
  refine ⟨?_, ?_, ?_⟩
  · exact (completionId_priority (paramsWith (some ("link-id"))) storeInitiated
      initCompleteState).1 ("link-id") rfl
  · exact ((completionId_priority (paramsWith none) storeInitiated
      initCompleteState).2.1 rfl).trans rfl
  · exact (completionId_priority (paramsWith none) emptyStore
      initCompleteState).2.2 rfl rfl

/-- C10: a present-but-empty `couple_id` parameter overrides even a
non-empty stored id — `??` is nullish, not falsy, coalescing — leaving the
page with the empty registration id and the submit button disabled. -/
theorem emptyParam_overrides_stored (params : SearchParams)
    (store : LocalStore) (s : CompleteState)
    (h : params paramCoupleId = some "") :
    (CompleteContent.onMount params store s).coupleId = "" ∧
    ∀ loading, submitDisabled loading
      (CompleteContent.onMount params store s).coupleId = true := by
  have hc : (CompleteContent.onMount params store s).coupleId = "" := by
    simp [CompleteContent.onMount, h]
  refine ⟨hc, fun loading => ?_⟩
  rw [hc]
  simp [submitDisabled]
  exact Or.inr rfl

/-- Witness for C10: `?couple_id=` on a store holding `stored-id` still
resolves to the empty id, with the submit button disabled. -/
theorem emptyParam_overrides_stored_witness :
    (CompleteContent.onMount (paramsWith (some (""))) storeInitiated
      initCompleteState).coupleId = "" ∧
    submitDisabled false (CompleteContent.onMount (paramsWith (some ("")))
      storeInitiated initCompleteState).coupleId = true := by
  have h := emptyParam_overrides_stored (paramsWith (some (""))) storeInitiated
    initCompleteState rfl
  exact ⟨h.1, h.2 false⟩

/-- C9: the submit button is disabled whenever the resolved registration id
is empty, so the request `handleSubmit` hands to `registerComplete` always
carries a non-empty `couple_id` when submission is possible. -/
theorem enabled_submit_nonempty_id (s : CompleteState) (form : CompleteForm) :
    (s.coupleId = "" → submitDisabled s.loading s.coupleId = true) ∧
    (submitDisabled s.loading s.coupleId = false →
      (CompleteContent.buildRequest s form).couple_id ≠ "") := by
  constructor
  · intro h
    simp [submitDisabled, h]
    exact Or.inr rfl
  · intro h hc
    have hc' : s.coupleId = "" := hc
    have hemp : String.isEmpty "" = true := rfl
    simp [submitDisabled, hc', hemp] at h

/-- Witness for C9: with an empty id the button is disabled; with id
`cid-7` the button is enabled and the request's `couple_id` is non-empty. -/
theorem enabled_submit_nonempty_id_witness :
    submitDisabled initCompleteState.loading initCompleteState.coupleId = true ∧
    (CompleteContent.buildRequest readyState anyForm).couple_id ≠ "" := by
  refine ⟨(enabled_submit_nonempty_id initCompleteState anyForm).1 rfl, ?_⟩
  exact (enabled_submit_nonempty_id readyState anyForm).2 rfl

/-- C4: on a successful verify call the page shows the "both verified"
outcome iff the response's `both_verified` flag is true, the "first party
verified" waiting outcome iff it is false, and displays the response's
contact address. -/
theorem verify_success_outcome (s : VerifyState)
    (res : RegisterVerifyResponse) :
    ((VerifyContent.onVerifyResult s (.ok res)).status = .successBoth ↔
      res.both_verified = true) ∧
    ((VerifyContent.onVerifyResult s (.ok res)).status = .successOne ↔
      res.both_verified = false) ∧
    (VerifyContent.onVerifyResult s (.ok res)).email = res.email := by
  cases hb : res.both_verified <;>
    simp [VerifyContent.onVerifyResult, hb]

/-- C7: the initiation payload always carries both contact addresses and
the display label, and carries `anniversary_date` exactly when the date
input is non-empty; an empty date input omits the field rather than
sending an empty string. -/
theorem initiate_payload_shape (form : InitiateForm) :
    (RegisterPage.buildPayload form).email_a = form.email_a ∧
    (RegisterPage.buildPayload form).email_b = form.email_b ∧
    (RegisterPage.buildPayload form).couple_name = form.couple_name ∧
    (form.anniversary_date = "" →
      (RegisterPage.buildPayload form).anniversary_date = none) ∧
    (form.anniversary_date ≠ "" →
      (RegisterPage.buildPayload form).anniversary_date =
        some form.anniversary_date) := by
  refine ⟨rfl, rfl, rfl, fun h => ?_, fun h => ?_⟩
  · have hemp : String.isEmpty "" = true := rfl
    simp [RegisterPage.buildPayload, h, hemp]
  · simp [RegisterPage.buildPayload, String.isEmpty_iff, h]

/-- Witness for C7: the empty date is omitted, the filled date is sent. -/
theorem initiate_payload_shape_witness :
    (RegisterPage.buildPayload formNoDate).anniversary_date = none ∧
    (RegisterPage.buildPayload formWithDate).anniversary_date =
      some ("2024-02-14") := by
  refine ⟨(initiate_payload_shape formNoDate).2.2.2.1 rfl, ?_⟩
  exact (initiate_payload_shape formWithDate).2.2.2.2 (by decide)

/-- C5: after a successful initiation request the initiating context stores
the returned registration id and the two submitted contact addresses under
the keys `pairspot_couple_id`, `pairspot_email_a`, `pairspot_email_b`. -/
theorem initiate_success_stores_correlation (form : InitiateForm)
    (s : InitiateState) (store : LocalStore)
    (api : RegisterInitiateRequest → Except String RegisterInitiateResponse)
    (res : RegisterInitiateResponse)
    (h : api (RegisterPage.buildPayload form) = .ok res) :
    getItem (RegisterPage.handleSubmit form s store api).2 keyCoupleId =
      some res.couple_id ∧
    getItem (RegisterPage.handleSubmit form s store api).2 keyEmailA =
      some form.email_a ∧
    getItem (RegisterPage.handleSubmit form s store api).2 keyEmailB =
      some form.email_b := by
  have h1 : keyCoupleId ≠ keyEmailA := by decide
  have h2 : keyCoupleId ≠ keyEmailB := by decide
  have h3 : keyEmailA ≠ keyEmailB := by decide
  refine ⟨?_, ?_, ?_⟩ <;>
    simp [RegisterPage.handleSubmit, h, getItem, setItem, h1, h2, h3]

/-- Witness for C5 on a fresh store and the concrete endpoint. -/
theorem initiate_success_stores_correlation_witness :
    getItem (RegisterPage.handleSubmit formWithDate initState0 emptyStore
      initApiOk).2 keyCoupleId = some ("cid-42") ∧
    getItem (RegisterPage.handleSubmit formWithDate initState0 emptyStore
      initApiOk).2 keyEmailA = some ("a@x.com") ∧
    getItem (RegisterPage.handleSubmit formWithDate initState0 emptyStore
      initApiOk).2 keyEmailB = some ("b@x.com") := by
  exact initiate_success_stores_correlation formWithDate initState0 emptyStore
    initApiOk { couple_id := "cid-42", message := "verification emails sent" } rfl

/-- C3: a successful completion purges the three locally stored correlation
keys; a failed completion leaves the store untouched. -/
theorem complete_submit_storage (s : CompleteState) (form : CompleteForm)
    (store : LocalStore)
    (api : RegisterCompleteRequest → Except String RegisterCompleteResponse) :
    (∀ res, api (CompleteContent.buildRequest s form) = .ok res →
      getItem (CompleteContent.handleSubmit s form store api).2 keyCoupleId = none ∧
      getItem (CompleteContent.handleSubmit s form store api).2 keyEmailA = none ∧
      getItem (CompleteContent.handleSubmit s form store api).2 keyEmailB = none) ∧
    (∀ msg, api (CompleteContent.buildRequest s form) = .error msg →
      (CompleteContent.handleSubmit s form store api).2 = store) := by
  constructor
  · intro res h
    have h1 : keyCoupleId ≠ keyEmailA := by decide
    have h2 : keyCoupleId ≠ keyEmailB := by decide
    have h3 : keyEmailA ≠ keyEmailB := by decide
    refine ⟨?_, ?_, ?_⟩ <;>
      simp [CompleteContent.handleSubmit, h, getItem, removeItem, h1, h2, h3]
  · intro msg h
    simp [CompleteContent.handleSubmit, h]

/-- Witness for C3 on the fully populated store: success clears all three
keys, failure changes nothing. -/
theorem complete_submit_storage_witness :
    (getItem (CompleteContent.handleSubmit readyState anyForm storeFull
        completeApiOk).2 keyCoupleId = none ∧
      getItem (CompleteContent.handleSubmit readyState anyForm storeFull
        completeApiOk).2 keyEmailA = none ∧
      getItem (CompleteContent.handleSubmit readyState anyForm storeFull
        completeApiOk).2 keyEmailB = none) ∧
    (CompleteContent.handleSubmit readyState anyForm storeFull
      completeApiErr).2 = storeFull := by
  constructor
  · exact (complete_submit_storage readyState anyForm storeFull
      completeApiOk).1 _ rfl
  · exact (complete_submit_storage readyState anyForm storeFull
      completeApiErr).2 ("Registration not found") rfl

/-- C6: a non-ok response surfaces the server-supplied outcome: a string
`detail` is thrown verbatim, an array `detail` as its messages joined with
`"; "`, and only an unparseable or other-shaped body falls back to the
generic `HTTP <status>`. -/
theorem post_error_messages (res : HttpResponse) (h : res.ok = false) :
    (∀ s, res.detail = some (.str s) → post res = .error s) ∧
    (∀ msgs, res.detail = some (.arr msgs) →
      post res = .error (String.intercalate ("; ") msgs)) ∧
    ((res.detail = some .other ∨ res.detail = none) →
      post res = .error ("HTTP " ++ toString res.status)) := by
  refine ⟨fun s hs => ?_, fun msgs hm => ?_, fun ho => ?_⟩
  · simp [post, h, parseError, hs]
  · simp [post, h, parseError, hm]
  · rcases ho with ho | ho <;> simp [post, h, parseError, ho]

/-- Witness for C6 on the three concrete responses. -/
theorem post_error_messages_witness :
    post resStr = .error ("Registration not found") ∧
    post resArr = .error ("field required; value too short") ∧
    post resRaw = .error ("HTTP 500") := by
  have h1 := post_error_messages resStr rfl
  have h2 := post_error_messages resArr rfl
  have h3 := post_error_messages resRaw rfl
  refine ⟨h1.1 _ rfl, (h2.2.1 _ rfl).trans ?_, (h3.2.2 (Or.inr rfl)).trans ?_⟩
  · rfl
  · rfl

/-- C2 counterexample: on a device that did not initiate (fresh store),
verification succeeds, yet `goToComplete` navigates with no `couple_id`
parameter and the completion step resolves the empty registration id —
refuting the claim that such a device still arrives with a usable id. -/
theorem nonInitiating_arrival_empty_id :
    (VerifyContent.onVerifyResult initVerifyState (.ok verifyResB)).status =
      .successBoth ∧
    VerifyContent.goToCompleteParam emptyStore = none ∧
    (CompleteContent.onMount (VerifyContent.goToCompleteParams emptyStore)
      emptyStore initCompleteState).coupleId = "" := by
  exact ⟨rfl, rfl, rfl⟩

/-- C2 (amended): a device arrives at the completion step with the
registration id resolved exactly when the id is available to that device —
a non-empty locally stored id (the initiating device) is carried by
`goToComplete` as the `couple_id` parameter and resolved; a device holding
no stored id navigates onward with no parameter and resolves the empty
id. -/
theorem completion_arrival_id_cases (store : LocalStore) (s : CompleteState) :
    (∀ cid, getItem store keyCoupleId = some cid → cid ≠ "" →
      VerifyContent.goToCompleteParams store paramCoupleId = some cid ∧
      (CompleteContent.onMount (VerifyContent.goToCompleteParams store)
        store s).coupleId = cid) ∧
    (getItem store keyCoupleId = none →
      VerifyContent.goToCompleteParams store paramCoupleId = none ∧
      (CompleteContent.onMount (VerifyContent.goToCompleteParams store)
        store s).coupleId = "") := by
  constructor
  · intro cid hst hne
    have hparam : VerifyContent.goToCompleteParams store paramCoupleId =
        some cid := by
      simp [VerifyContent.goToCompleteParams, VerifyContent.goToCompleteParam,
        hst, String.isEmpty_iff, hne]
    exact ⟨hparam, by simp [CompleteContent.onMount, hparam]⟩
  · intro hst
    have hemp : String.isEmpty "" = true := rfl
    have hparam : VerifyContent.goToCompleteParams store paramCoupleId =
        none := by
      simp [VerifyContent.goToCompleteParams, VerifyContent.goToCompleteParam,
        hst, hemp]
    exact ⟨hparam, by simp [CompleteContent.onMount, hparam, hst]⟩

/-- Witness for the amended C2: the initiating device's stored id rides the
navigation and resolves; a fresh device resolves the empty id. -/
theorem completion_arrival_id_cases_witness :
    (VerifyContent.goToCompleteParams storeInitiated paramCoupleId =
        some ("stored-id") ∧
      (CompleteContent.onMount (VerifyContent.goToCompleteParams storeInitiated)
        storeInitiated initCompleteState).coupleId = "stored-id") ∧
    (VerifyContent.goToCompleteParams emptyStore paramCoupleId = none ∧
      (CompleteContent.onMount (VerifyContent.goToCompleteParams emptyStore)
        emptyStore initCompleteState).coupleId = "") := by
  refine ⟨?_, ?_⟩
  · exact (completion_arrival_id_cases storeInitiated initCompleteState).1
      ("stored-id") rfl (by decide)
  · exact (completion_arrival_id_cases emptyStore initCompleteState).2 rfl

/-- A successful redemption, spelled out: the token is consumed in the
store, the bound slot becomes verified, and the result reports the redeemed
slot's contact address and the recomputed aggregate flag. -/
theorem redeem_ok (now : Nat) (t : VerificationToken) (st : RegState)
    (h : st.tokens t.value = some t) (he : ¬ t.expires_at < now)
    (hc : t.consumed = false) :
    redeem now t.value st = .ok
      ({ reg := st.reg.setVerified t.slot,
         tokens := fun v => if v = t.value then some { t with consumed := true }
           else st.tokens v },
       { contact_address := ((st.reg.setVerified t.slot).slotOf t.slot).contact_address,
         both_verified := (st.reg.setVerified t.slot).slotA.verified &&
           (st.reg.setVerified t.slot).slotB.verified }) := by
  simp [redeem, h, he, hc]

/-- C8 (modelled from the spec): for a valid registration holding distinct,
live, unconsumed tokens for slot A and slot B, redeeming A's token then B's
or B's then A's yields the identical final state, with both slots verified
and the second redemption reporting `both_verified = true` either way. -/
theorem redeem_commutes (st : RegState) (now : Nat)
    (tA tB : VerificationToken)
    (hA : st.tokens tA.value = some tA) (hB : st.tokens tB.value = some tB)
    (hsA : tA.slot = Slot.A) (hsB : tB.slot = Slot.B)
    (hne : tA.value ≠ tB.value)
    (heA : ¬ tA.expires_at < now) (heB : ¬ tB.expires_at < now)
    (hcA : tA.consumed = false) (hcB : tB.consumed = false) :
    ∃ stF rAB rBA,
      redeem2 now tA.value tB.value st = .ok (stF, rAB) ∧
      redeem2 now tB.value tA.value st = .ok (stF, rBA) ∧
      stF.reg.slotA.verified = true ∧ stF.reg.slotB.verified = true ∧
      rAB.both_verified = true ∧ rBA.both_verified = true := by
  have hBA : tB.value ≠ tA.value := fun hv => hne hv.symm
  have e1 := redeem_ok now tA st hA heA hcA
  have e1' := redeem_ok now tB st hB heB hcB
  have e2 := redeem_ok now tB
    { reg := st.reg.setVerified tA.slot,
      tokens := fun v => if v = tA.value then some { tA with consumed := true }
        else st.tokens v }
    (by simpa [hBA] using hB) heB hcB
  have e2' := redeem_ok now tA
    { reg := st.reg.setVerified tB.slot,
      tokens := fun v => if v = tB.value then some { tB with consumed := true }
        else st.tokens v }
    (by simpa [hne] using hA) heA hcA
  have hreg : (st.reg.setVerified tB.slot).setVerified tA.slot =
      (st.reg.setVerified tA.slot).setVerified tB.slot := by
    rw [hsA, hsB]
    rfl
  have htok : (fun v => if v = tA.value then some { tA with consumed := true }
        else if v = tB.value then some { tB with consumed := true }
        else st.tokens v)
      = (fun v => if v = tB.value then some { tB with consumed := true }
        else if v = tA.value then some { tA with consumed := true }
        else st.tokens v) := by
    funext v
    by_cases h1 : v = tA.value
    · subst h1
      simp [hne]
    · by_cases h2 : v = tB.value
      · subst h2
        simp [hBA]
      · simp [h1, h2]
  refine ⟨{ reg := (st.reg.setVerified tA.slot).setVerified tB.slot,
            tokens := fun v =>
              if v = tB.value then some { tB with consumed := true }
              else if v = tA.value then some { tA with consumed := true }
              else st.tokens v },
          { contact_address :=
              (((st.reg.setVerified tA.slot).setVerified tB.slot).slotOf
                tB.slot).contact_address,
            both_verified :=
              ((st.reg.setVerified tA.slot).setVerified tB.slot).slotA.verified &&
              ((st.reg.setVerified tA.slot).setVerified tB.slot).slotB.verified },
          { contact_address :=
              (((st.reg.setVerified tB.slot).setVerified tA.slot).slotOf
                tA.slot).contact_address,
            both_verified :=
              ((st.reg.setVerified tB.slot).setVerified tA.slot).slotA.verified &&
              ((st.reg.setVerified tB.slot).setVerified tA.slot).slotB.verified },
          ?_, ?_, ?_, ?_, ?_, ?_⟩
  · simp only [redeem2, e1]
    exact e2
  · simp only [redeem2, e1']
    exact e2'.trans
      (congrArg Except.ok
        (congrArg₂ Prod.mk (congrArg₂ RegState.mk hreg htok) rfl))
  · rw [hsA, hsB]
    rfl
  · rw [hsA, hsB]
    rfl
  · rw [hsA, hsB]
    rfl
  · rw [hsA, hsB]
    rfl

/-- Witness for C8 on the concrete two-token state at time 50, before
either token's expiry at 100. -/
theorem redeem_commutes_witness :
    ∃ stF rAB rBA,
      redeem2 50 tokA.value tokB.value stEx = .ok (stF, rAB) ∧
      redeem2 50 tokB.value tokA.value stEx = .ok (stF, rBA) ∧
      stF.reg.slotA.verified = true ∧ stF.reg.slotB.verified = true ∧
      rAB.both_verified = true ∧ rBA.both_verified = true := by
  exact redeem_commutes stEx 50 tokA tokB rfl (by decide) rfl rfl
    (by decide) (by decide) (by decide) rfl rfl
